import Mathlib

/-!
Shallow embedding of scripts/compare_jmh.py.

The script compares HQBenchmark.perftNodes results in two JMH output
files and fails (exit 1) when the pull-request nodes/s figure is below
98 % of the base figure.  Python floats are modelled as rationals, a
file is a path together with its list of lines, and the printed report
lines are modelled by a small inductive carrying the values they render.
-/

namespace CompareJmh

/-- Accumulator pass behind pySplit: walk the characters, collecting the
current (reversed) token and emitting it at each whitespace run. -/
def pySplitAux : List Char → List Char → List String
  | [], acc => if acc.isEmpty then [] else [acc.reverse.asString]
  | c :: rest, acc =>
    if c.isWhitespace then
      if acc.isEmpty then pySplitAux rest []
      else acc.reverse.asString :: pySplitAux rest []
    else pySplitAux rest (c :: acc)

/-- Python str.split() with no argument: split on runs of whitespace;
no empty tokens are produced. -/
def pySplit (s : String) : List String := pySplitAux s.toList []

/-- Boolean test that needle occurs contiguously inside hay. -/
def isSubList (needle hay : List Char) : Bool :=
  match hay with
  | [] => needle.isEmpty
  | c :: t => needle.isPrefixOf (c :: t) || isSubList needle t

/-- Python substring test (the in operator on strings):
needle occurs contiguously inside hay. -/
def containsStr (hay needle : String) : Bool :=
  isSubList needle.toList hay.toList

/-- Numeric value of a list of decimal digit characters. -/
def digitsVal (cs : List Char) : ℕ :=
  cs.foldl (fun a c => 10 * a + (c.toNat - '0'.toNat)) 0

/-- Modelled fragment of the Python builtin float(): an optional sign
followed by decimal digits with an optional fractional part, as produced
in JMH report lines.  Returns none when the token is not numeric, which
in the script surfaces as the ValueError caught in grab. -/
def pyFloat? (s : String) : Option ℚ :=
  let go : List Char → Option ℚ := fun cs =>
    let ip := cs.takeWhile Char.isDigit
    let rest := cs.dropWhile Char.isDigit
    match rest with
    | [] => if ip.isEmpty then none else some (digitsVal ip)
    | '.' :: fp =>
      if (ip.isEmpty && fp.isEmpty) || !fp.all Char.isDigit then none
      else some ((digitsVal ip : ℚ) + (digitsVal fp : ℚ) / (10 : ℚ) ^ fp.length)
    | _ => none
  match s.toList with
  | '-' :: cs => (go cs).map (fun q => -q)
  | '+' :: cs => go cs
  | cs => go cs

/-- An input file: its path (used in error messages) and the list of
lines of its text, as produced by read_text().splitlines(). -/
structure PyFile where
  path : String
  lines : List String
deriving Repr, DecidableEq

/-- The body of the for-loop of grab applied to one line: if the line
contains the tag and the mode token thrpt, split it into whitespace
tokens, locate the anchor token (Python list.index finds the first
occurrence and raises when absent), and convert the token just before it
(Python toks[idx - 1]; for idx = 0 that is toks[-1], the last token).
Returns none when the line does not match or the conversion fails, in
which case the loop keeps scanning. -/
def grabLine (want_nodes : Bool) (line : String) : Option ℚ :=
  let tag := if want_nodes then "perftNodes:nodes" else "perftNodes"
  if containsStr line tag && containsStr line "thrpt" then
    let toks := pySplit line
    let anchor := if want_nodes then "#" else "ops/s"
    match toks.findIdx? (fun t => t == anchor) with
    | none => none
    | some idx =>
      match (if idx = 0 then toks.getLast? else toks[idx - 1]?) with
      | none => none
      | some t => pyFloat? t
  else none

/-- grab: return the numeric field just before ops/s (score) or #
(nodes) on the first matching line; raise ValueError (modelled as
Except.error carrying the message) when no line yields a value. -/
def grab (f : PyFile) (want_nodes : Bool) : Except String ℚ :=
  let tag := if want_nodes then "perftNodes:nodes" else "perftNodes"
  match f.lines.findSome? (grabLine want_nodes) with
  | some v => Except.ok v
  | none => Except.error (tag ++ " numbers not found in " ++ f.path)

/-- extract: the pair (score, nodes) of a file; the first failing grab
propagates. -/
def extract (p : PyFile) : Except String (ℚ × ℚ) :=
  match grab p false with
  | Except.error e => Except.error e
  | Except.ok s =>
    match grab p true with
    | Except.error e => Except.error e
    | Except.ok n => Except.ok (s, n)

/-- nodes-per-second figure: score * nodes_per_call. -/
def nps (score nodes : ℚ) : ℚ := score * nodes

/-- ratio = nps_pr / nps_base if nps_base else 0: Python truthiness of a
float is being nonzero, so a zero base yields the sentinel 0. -/
def ratioOf (nps_pr nps_base : ℚ) : ℚ :=
  if nps_base ≠ 0 then nps_pr / nps_base else 0

/-- One line printed to stdout, carrying the values it renders. -/
inductive OutLine where
  /-- Base nodes/s : ... -/
  | baseNps (v : ℚ)
  /-- PR   nodes/s : ... -/
  | prNps (v : ℚ)
  /-- Speed ratio  : ...x (faster/slower) -/
  | speedRatio (r : ℚ) (faster : Bool)
  /-- PR is slower than base - failing the build. -/
  | failMsg
  /-- PR is as fast or faster than base. -/
  | passMsg
deriving Repr, DecidableEq

/-- main(base, pr): extract both files, form the nodes/s figures and the
ratio, print the three report lines, then either print the failure line
and exit 1 (ratio < 0.98) or print the pass line and return (so the
process exits 0).  The result is the stdout transcript and exit code;
an uncaught ValueError from extraction propagates as Except.error. -/
def main (base pr : PyFile) : Except String (List OutLine × ℕ) :=
  match extract base with
  | Except.error e => Except.error e
  | Except.ok (score_b, nodes_b) =>
    match extract pr with
    | Except.error e => Except.error e
    | Except.ok (score_p, nodes_p) =>
      let nps_base := nps score_b nodes_b
      let nps_pr := nps score_p nodes_p
      let ratio := ratioOf nps_pr nps_base
      let out := [OutLine.baseNps nps_base, OutLine.prNps nps_pr,
                  OutLine.speedRatio ratio (decide (1 < ratio))]
      if ratio < 98 / 100 then
        Except.ok (out ++ [OutLine.failMsg], 1)
      else
        Except.ok (out ++ [OutLine.passMsg], 0)

/-- The files read by main, in order: each grab call performs one
read_text() of its file, and execution stops at the first failure. -/
def mainReads (base pr : PyFile) : List String :=
  match grab base false with
  | Except.error _ => [base.path]
  | Except.ok _ =>
    match grab base true with
    | Except.error _ => [base.path, base.path]
    | Except.ok _ =>
      match grab pr false with
      | Except.error _ => [base.path, base.path, pr.path]
      | Except.ok _ => [base.path, base.path, pr.path, pr.path]

/-- The usage string passed to sys.exit for a wrong argument count. -/
def usageMsg : String := "Usage: compare_jmh.py <base.txt> <pr.txt>"

/-- Observable outcome of one process run: stdout transcript, the
message written to stderr if any (the usage string, or the uncaught
exception's message), the exit code, and the file reads performed. -/
structure ScriptResult where
  stdout : List OutLine
  stderr : Option String
  exitCode : ℕ
  reads : List String
deriving Repr, DecidableEq

/-- The whole script: sys.argv holds the program name and the
arguments, so exactly three entries are required; otherwise
sys.exit(usage) writes the usage string to stderr and exits 1 without
touching any file.  An exception escaping main makes Python print its
message to stderr and exit 1. -/
def script (argv : List String) (content : String → List String) : ScriptResult :=
  match argv with
  | [_, b, p] =>
    let base : PyFile := ⟨b, content b⟩
    let pr : PyFile := ⟨p, content p⟩
    match main base pr with
    | Except.ok (out, code) => ⟨out, none, code, mainReads base pr⟩
    | Except.error e => ⟨[], some e, 1, mainReads base pr⟩
  | _ => ⟨[], some usageMsg, 1, []⟩

deriving instance DecidableEq for Except

/-! ### Helper lemmas about the substring test -/

theorem isSubList_iff (n h : List Char) : isSubList n h = true ↔ n <:+: h := by
  induction h with
  | nil => simp [isSubList, List.isEmpty_iff, List.infix_nil]
  | cons c t ih => simp [isSubList, ih, List.infix_cons_iff]

theorem containsStr_iff (hay needle : String) :
    containsStr hay needle = true ↔ needle.toList <:+: hay.toList :=
  isSubList_iff _ _

theorem containsStr_tag_of_nodes (l : String)
    (h : containsStr l "perftNodes:nodes" = true) :
    containsStr l "perftNodes" = true := by
  rw [containsStr_iff] at h ⊢
  exact List.IsInfix.trans ((isSubList_iff _ _).mp (by decide)) h

theorem containsStr_append_mid (a b c : String) :
    containsStr (a ++ b ++ c) a = true := by
  rw [containsStr_iff]
  have heq : (a ++ b ++ c).toList = a.toList ++ (b.toList ++ c.toList) := by
    simp [String.toList, List.append_assoc]
  rw [heq]
  exact (List.prefix_append _ _).isInfix

theorem containsStr_append_last (a b c : String) :
    containsStr (a ++ b ++ c) c = true := by
  rw [containsStr_iff]
  have heq : (a ++ b ++ c).toList = (a.toList ++ b.toList) ++ c.toList := by
    simp [String.toList]
  rw [heq]
  exact (List.suffix_append _ _).isInfix

/-- A line in which the benchmark tag never occurs is skipped by both
grab variants: the tag of the nodes variant contains the plain tag. -/
theorem grabLine_of_no_tag (w : Bool) (l : String)
    (h : containsStr l "perftNodes" = false) : grabLine w l = none := by
  cases w with
  | false => simp [grabLine, h]
  | true =>
    have h2 : containsStr l "perftNodes:nodes" = false := by
      cases hc : containsStr l "perftNodes:nodes" with
      | false => rfl
      | true => exact absurd (containsStr_tag_of_nodes l hc) (by simp [h])
    simp [grabLine, h2]

/-- A file none of whose lines mentions the benchmark tag makes grab
raise, with the message naming the tag and the file path. -/
theorem grab_error_of_no_tag (f : PyFile) (w : Bool)
    (h : ∀ l ∈ f.lines, containsStr l "perftNodes" = false) :
    grab f w = Except.error
      ((if w then "perftNodes:nodes" else "perftNodes") ++
        " numbers not found in " ++ f.path) := by
  have hnone : f.lines.findSome? (grabLine w) = none :=
    List.findSome?_eq_none_iff.mpr (fun x hx => grabLine_of_no_tag w x (h x hx))
  simp [grab, hnone]

/-! ### Sample inputs used by the witnesses -/

/-- A base run: score 1000 ops/s, 10 nodes per call. -/
def baseSample : PyFile :=
  ⟨"base.txt",
   ["Benchmark Mode Cnt Score Units",
    "HQBenchmark.perftNodes thrpt 5 1000.0 ops/s",
    "HQBenchmark.perftNodes:nodes thrpt 5 10.0 #"]⟩

/-- A pull-request run at exactly 98 % of the base sample. -/
def prSample : PyFile :=
  ⟨"pr.txt",
   ["HQBenchmark.perftNodes thrpt 5 980.0 ops/s",
    "HQBenchmark.perftNodes:nodes thrpt 5 10.0 #"]⟩

/-- A pull-request run at 97 % of the base sample. -/
def prSlowSample : PyFile :=
  ⟨"pr.txt",
   ["HQBenchmark.perftNodes thrpt 5 970.0 ops/s",
    "HQBenchmark.perftNodes:nodes thrpt 5 10.0 #"]⟩

/-- A base run whose score is zero, so its nodes/s figure is zero. -/
def baseZeroSample : PyFile :=
  ⟨"base.txt",
   ["HQBenchmark.perftNodes thrpt 5 0.0 ops/s",
    "HQBenchmark.perftNodes:nodes thrpt 5 10.0 #"]⟩

/-- Lines that never mention the benchmark tag. -/
def noTagLines : List String := ["no benchmark output here"]

/-! ### Claim theorems

The rational operations of Batteries are irreducible by default, which
blocks concrete evaluation inside decide; the witnesses below evaluate
the model on concrete inputs, so reducibility is restored locally. -/

section ConcreteEval

attribute [local semireducible] Rat.mul Rat.add Rat.sub Rat.inv Rat.ofScientific

/-- C1: for every pair of input files from which base and PR
nodes-per-second values are extracted, the process terminates with exit
code 1 if and only if the computed ratio is strictly below 0.98; a
ratio of exactly 0.98 yields exit code 0. -/
theorem exit_one_iff_ratio_lt (base pr : PyFile) (sb nb sp np2 : ℚ)
    (hb : extract base = Except.ok (sb, nb))
    (hp : extract pr = Except.ok (sp, np2)) :
    ∃ out code, main base pr = Except.ok (out, code) ∧
      (code = 1 ↔ ratioOf (nps sp np2) (nps sb nb) < 98 / 100) ∧
      (ratioOf (nps sp np2) (nps sb nb) = 98 / 100 → code = 0) := by
  simp only [main, hb, hp]
  by_cases hlt : ratioOf (nps sp np2) (nps sb nb) < 98 / 100
  · simp only [if_pos hlt]
    exact ⟨_, _, rfl, by simp [hlt],
      fun he => absurd hlt (by rw [he]; exact lt_irrefl _)⟩
  · simp only [if_neg hlt]
    exact ⟨_, _, rfl, by simp [hlt], fun _ => rfl⟩

theorem exit_one_iff_ratio_lt_witness :
    ∃ out code, main baseSample prSample = Except.ok (out, code) ∧
      (code = 1 ↔ ratioOf (nps 980 10) (nps 1000 10) < 98 / 100) ∧
      (ratioOf (nps 980 10) (nps 1000 10) = 98 / 100 → code = 0) :=
  exit_one_iff_ratio_lt baseSample prSample 1000 10 980 10
    (by decide) (by decide)

/-- C2: the computed nodes-per-second figures are the products of the
extracted score and nodes-per-call values of each file. -/
theorem nps_eq_score_mul_nodes (base pr : PyFile) (sb nb sp np2 : ℚ)
    (hb : extract base = Except.ok (sb, nb))
    (hp : extract pr = Except.ok (sp, np2)) :
    ∃ rest code, main base pr = Except.ok
      (OutLine.baseNps (sb * nb) :: OutLine.prNps (sp * np2) :: rest, code) := by
  simp only [main, hb, hp, nps]
  split
  · exact ⟨_, _, rfl⟩
  · exact ⟨_, _, rfl⟩

theorem nps_eq_score_mul_nodes_witness :
    ∃ rest code, main baseSample prSample = Except.ok
      (OutLine.baseNps (1000 * 10) :: OutLine.prNps (980 * 10) :: rest, code) :=
  nps_eq_score_mul_nodes baseSample prSample 1000 10 980 10
    (by decide) (by decide)

/-- C3: the printed ratio equals nps_pr / nps_base whenever the base
nodes-per-second figure is positive, and a zero base figure never
divides: the computation yields the fixed sentinel 0. -/
theorem ratio_div_or_zero_sentinel (base pr : PyFile) (sb nb sp np2 : ℚ)
    (hb : extract base = Except.ok (sb, nb))
    (hp : extract pr = Except.ok (sp, np2)) :
    (∃ fl rest code, main base pr = Except.ok
      (OutLine.baseNps (nps sb nb) :: OutLine.prNps (nps sp np2) ::
       OutLine.speedRatio (ratioOf (nps sp np2) (nps sb nb)) fl :: rest, code)) ∧
    (0 < nps sb nb →
      ratioOf (nps sp np2) (nps sb nb) = nps sp np2 / nps sb nb) ∧
    (nps sb nb = 0 → ratioOf (nps sp np2) (nps sb nb) = 0) := by
  refine ⟨?_, ?_, ?_⟩
  · simp only [main, hb, hp]
    split
    · exact ⟨_, _, _, rfl⟩
    · exact ⟨_, _, _, rfl⟩
  · intro h
    simp [ratioOf, h.ne']
  · intro h
    simp [ratioOf, h]

theorem ratio_div_or_zero_sentinel_witness :
    (∃ fl rest code, main baseSample prSample = Except.ok
      (OutLine.baseNps (nps 1000 10) :: OutLine.prNps (nps 980 10) ::
       OutLine.speedRatio (ratioOf (nps 980 10) (nps 1000 10)) fl :: rest, code)) ∧
    (0 < nps 1000 10 →
      ratioOf (nps 980 10) (nps 1000 10) = nps 980 10 / nps 1000 10) ∧
    (nps 1000 10 = 0 → ratioOf (nps 980 10) (nps 1000 10) = 0) :=
  ratio_div_or_zero_sentinel baseSample prSample 1000 10 980 10
    (by decide) (by decide)

/-- C10: a zero base nodes-per-second figure makes the sentinel ratio 0
fall below the 0.98 threshold, so the process exits with code 1
whatever the PR figure is. -/
theorem zero_base_fails_build (base pr : PyFile) (sb nb sp np2 : ℚ)
    (hb : extract base = Except.ok (sb, nb))
    (hp : extract pr = Except.ok (sp, np2))
    (h0 : nps sb nb = 0) :
    ∃ out, main base pr = Except.ok (out, 1) := by
  have hr : ratioOf (nps sp np2) (nps sb nb) = 0 := by simp [ratioOf, h0]
  simp only [main, hb, hp, hr]
  norm_num

theorem zero_base_fails_build_witness :
    ∃ out, main baseZeroSample prSample = Except.ok (out, 1) :=
  zero_base_fails_build baseZeroSample prSample 0 10 980 10
    (by decide) (by decide) (by decide)

/-- C4: a file with no line mentioning the benchmark tag makes the
process abort: non-zero exit, an empty stdout (so no ratio line is ever
printed), and an error message naming the missing tag and the file.
The first conjunct treats a base file without the tag; the second a
pull-request file without the tag once the base file extracted. -/
theorem missing_tag_aborts (bpath ppath : String) (content : String → List String) :
    ((∀ l ∈ content bpath, containsStr l "perftNodes" = false) →
      (script ["compare_jmh.py", bpath, ppath] content).exitCode ≠ 0 ∧
      (script ["compare_jmh.py", bpath, ppath] content).stdout = [] ∧
      (script ["compare_jmh.py", bpath, ppath] content).stderr =
        some ("perftNodes" ++ " numbers not found in " ++ bpath) ∧
      containsStr ("perftNodes" ++ " numbers not found in " ++ bpath) "perftNodes" = true ∧
      containsStr ("perftNodes" ++ " numbers not found in " ++ bpath) bpath = true) ∧
    (∀ sb nb : ℚ,
      extract ⟨bpath, content bpath⟩ = Except.ok (sb, nb) →
      (∀ l ∈ content ppath, containsStr l "perftNodes" = false) →
      (script ["compare_jmh.py", bpath, ppath] content).exitCode ≠ 0 ∧
      (script ["compare_jmh.py", bpath, ppath] content).stdout = [] ∧
      (script ["compare_jmh.py", bpath, ppath] content).stderr =
        some ("perftNodes" ++ " numbers not found in " ++ ppath) ∧
      containsStr ("perftNodes" ++ " numbers not found in " ++ ppath) "perftNodes" = true ∧
      containsStr ("perftNodes" ++ " numbers not found in " ++ ppath) ppath = true) := by
  constructor
  · intro h
    have hg : grab ⟨bpath, content bpath⟩ false =
        Except.error ("perftNodes" ++ " numbers not found in " ++ bpath) := by
      have := grab_error_of_no_tag ⟨bpath, content bpath⟩ false h
      simpa using this
    have hm : main ⟨bpath, content bpath⟩ ⟨ppath, content ppath⟩ =
        Except.error ("perftNodes" ++ " numbers not found in " ++ bpath) := by
      simp [main, extract, hg]
    refine ⟨?_, ?_, ?_, ?_, ?_⟩
    · simp [script, hm]
    · simp [script, hm]
    · simp [script, hm]
    · exact containsStr_append_mid _ _ _
    · exact containsStr_append_last _ _ _
  · intro sb nb hbase h
    have hg : grab ⟨ppath, content ppath⟩ false =
        Except.error ("perftNodes" ++ " numbers not found in " ++ ppath) := by
      have := grab_error_of_no_tag ⟨ppath, content ppath⟩ false h
      simpa using this
    have hex : extract ⟨ppath, content ppath⟩ =
        Except.error ("perftNodes" ++ " numbers not found in " ++ ppath) := by
      simp [extract, hg]
    have hm : main ⟨bpath, content bpath⟩ ⟨ppath, content ppath⟩ =
        Except.error ("perftNodes" ++ " numbers not found in " ++ ppath) := by
      simp [main, hbase, hex]
    refine ⟨?_, ?_, ?_, ?_, ?_⟩
    · simp [script, hm]
    · simp [script, hm]
    · simp [script, hm]
    · exact containsStr_append_mid _ _ _
    · exact containsStr_append_last _ _ _

/-- Base and pull-request contents where neither file carries the tag. -/
def contentNoTag : String → List String := fun _ => noTagLines

/-- Contents where the base file parses and the pull-request one does
not carry the tag. -/
def contentPrNoTag : String → List String :=
  fun p => if p = "base.txt" then baseSample.lines else noTagLines

theorem missing_tag_aborts_witness :
    ((script ["compare_jmh.py", "base.txt", "pr.txt"] contentNoTag).exitCode ≠ 0 ∧
     (script ["compare_jmh.py", "base.txt", "pr.txt"] contentNoTag).stdout = [] ∧
     (script ["compare_jmh.py", "base.txt", "pr.txt"] contentNoTag).stderr =
       some ("perftNodes" ++ " numbers not found in " ++ "base.txt") ∧
     containsStr ("perftNodes" ++ " numbers not found in " ++ "base.txt") "perftNodes" = true ∧
     containsStr ("perftNodes" ++ " numbers not found in " ++ "base.txt") "base.txt" = true) ∧
    ((script ["compare_jmh.py", "base.txt", "pr.txt"] contentPrNoTag).exitCode ≠ 0 ∧
     (script ["compare_jmh.py", "base.txt", "pr.txt"] contentPrNoTag).stdout = [] ∧
     (script ["compare_jmh.py", "base.txt", "pr.txt"] contentPrNoTag).stderr =
       some ("perftNodes" ++ " numbers not found in " ++ "pr.txt") ∧
     containsStr ("perftNodes" ++ " numbers not found in " ++ "pr.txt") "perftNodes" = true ∧
     containsStr ("perftNodes" ++ " numbers not found in " ++ "pr.txt") "pr.txt" = true) :=
  ⟨(missing_tag_aborts "base.txt" "pr.txt" contentNoTag).1 (by decide),
   (missing_tag_aborts "base.txt" "pr.txt" contentPrNoTag).2 1000 10
     (by decide) (by decide)⟩

/-- C5: a line that matches the tag and the mode token but from which
no number can be pulled is skipped, scanning continuing with the later
lines; and when every line is skipped the extractor fails with the
tag-not-found error naming the tag and the file. -/
theorem malformed_line_skipped (w : Bool) (p l : String) (ls lines : List String)
    (_htag : containsStr l (if w then "perftNodes:nodes" else "perftNodes") = true)
    (_hmode : containsStr l "thrpt" = true)
    (hskip : grabLine w l = none) :
    grab ⟨p, l :: ls⟩ w = grab ⟨p, ls⟩ w ∧
    ((∀ x ∈ lines, grabLine w x = none) →
      grab ⟨p, lines⟩ w = Except.error
        ((if w then "perftNodes:nodes" else "perftNodes") ++
          " numbers not found in " ++ p)) := by
  constructor
  · simp [grab, List.findSome?_cons, hskip]
  · intro hall
    simp [grab, List.findSome?_eq_none_iff.mpr hall]

theorem malformed_line_skipped_witness :
    (grab ⟨"f.txt", "HQBenchmark.perftNodes thrpt 5 junk ops/s" :: baseSample.lines⟩ false =
      grab ⟨"f.txt", baseSample.lines⟩ false) ∧
    grab ⟨"f.txt", ["HQBenchmark.perftNodes thrpt 5 junk ops/s"]⟩ false =
      Except.error ((if false then "perftNodes:nodes" else "perftNodes") ++
        " numbers not found in " ++ "f.txt") := by
  have h := malformed_line_skipped false "f.txt"
    "HQBenchmark.perftNodes thrpt 5 junk ops/s" baseSample.lines
    ["HQBenchmark.perftNodes thrpt 5 junk ops/s"]
    (by decide) (by decide) (by decide)
  exact ⟨h.1, h.2 (by decide)⟩

/-- C6: any argument count other than exactly two positional arguments
(three sys.argv entries including the program name) makes the process
write the usage string to stderr and exit 1 with nothing printed to
stdout and no file read. -/
theorem wrong_arg_count_usage (argv : List String) (content : String → List String)
    (h : argv.length ≠ 3) :
    script argv content = ⟨[], some usageMsg, 1, []⟩ := by
  match argv with
  | [] => rfl
  | [_] => rfl
  | [_, _] => rfl
  | [_, _, _] => exact absurd rfl h
  | _ :: _ :: _ :: _ :: _ => rfl

theorem wrong_arg_count_usage_witness :
    script ["compare_jmh.py"] contentNoTag = ⟨[], some usageMsg, 1, []⟩ :=
  wrong_arg_count_usage ["compare_jmh.py"] contentNoTag (by decide)

/-- C7 as stated is false: a successful run prints the three report
lines and then one more verdict line, so stdout holds four lines, not
exactly three.  Concretely the sample pair completes with four stdout
lines. -/
theorem exactly_three_lines_false :
    main baseSample prSample = Except.ok
      ([OutLine.baseNps 10000, OutLine.prNps 9800,
        OutLine.speedRatio (49 / 50) false, OutLine.passMsg], 0) ∧
    ([OutLine.baseNps 10000, OutLine.prNps 9800,
      OutLine.speedRatio (49 / 50) false, OutLine.passMsg] : List OutLine).length ≠ 3 :=
  ⟨by decide, by decide⟩

/-- C7 amended: every successful run writes exactly four lines to
stdout - the base metric, the pull-request metric, the ratio with its
direction, and a pass or fail verdict line. -/
theorem four_lines_output (base pr : PyFile) (sb nb sp np2 : ℚ)
    (hb : extract base = Except.ok (sb, nb))
    (hp : extract pr = Except.ok (sp, np2)) :
    ∃ verdict code, main base pr = Except.ok
      ([OutLine.baseNps (nps sb nb), OutLine.prNps (nps sp np2),
        OutLine.speedRatio (ratioOf (nps sp np2) (nps sb nb))
          (decide (1 < ratioOf (nps sp np2) (nps sb nb))), verdict], code) ∧
      ((verdict = OutLine.failMsg ∧ code = 1) ∨
       (verdict = OutLine.passMsg ∧ code = 0)) := by
  simp only [main, hb, hp]
  split
  · exact ⟨OutLine.failMsg, 1, rfl, Or.inl ⟨rfl, rfl⟩⟩
  · exact ⟨OutLine.passMsg, 0, rfl, Or.inr ⟨rfl, rfl⟩⟩

theorem four_lines_output_witness :
    ∃ verdict code, main baseSample prSlowSample = Except.ok
      ([OutLine.baseNps (nps 1000 10), OutLine.prNps (nps 970 10),
        OutLine.speedRatio (ratioOf (nps 970 10) (nps 1000 10))
          (decide (1 < ratioOf (nps 970 10) (nps 1000 10))), verdict], code) ∧
      ((verdict = OutLine.failMsg ∧ code = 1) ∨
       (verdict = OutLine.passMsg ∧ code = 0)) :=
  four_lines_output baseSample prSlowSample 1000 10 970 10
    (by decide) (by decide)

/-- C8: on a line holding the tag and the mode token, the extractor
returns the parse of the token just before the first anchor occurrence
(ops/s for the score, # for the nodes figure), and the nodes variant
only ever matches lines carrying the :nodes suffixed tag. -/
theorem anchor_token_extraction :
    (∀ (w : Bool) (line : String) (idx : ℕ) (t : String) (v : ℚ),
      containsStr line (if w then "perftNodes:nodes" else "perftNodes") = true →
      containsStr line "thrpt" = true →
      (pySplit line).findIdx? (fun s => s == (if w then "#" else "ops/s")) = some idx →
      1 ≤ idx →
      (pySplit line)[idx - 1]? = some t →
      pyFloat? t = some v →
      grabLine w line = some v) ∧
    (∀ line : String, containsStr line "perftNodes:nodes" = false →
      grabLine true line = none) := by
  constructor
  · intro w line idx t v htag hmode hidx h1 ht hv
    have h0 : ¬ idx = 0 := by omega
    simp only [grabLine, htag, hmode, Bool.and_self, if_true, hidx, h0, if_false, ht, hv]
  · intro line hfalse
    simp [grabLine, hfalse]

theorem anchor_token_extraction_witness :
    grabLine false "HQBenchmark.perftNodes thrpt 5 1000.0 ops/s" = some 1000 ∧
    grabLine true "no nodes suffixed tag but thrpt" = none :=
  ⟨anchor_token_extraction.1 false "HQBenchmark.perftNodes thrpt 5 1000.0 ops/s"
      4 "1000.0" 1000 (by decide) (by decide) (by decide) (by decide)
      (by decide) (by decide),
   anchor_token_extraction.2 "no nodes suffixed tag but thrpt" (by decide)⟩

/-- C9: when several lines match and parse, the first matching line in
file order supplies the value; every later line is ignored. -/
theorem first_match_wins (w : Bool) (p : String) (pre post : List String)
    (l : String) (v : ℚ)
    (hpre : ∀ x ∈ pre, grabLine w x = none)
    (hl : grabLine w l = some v) :
    grab ⟨p, pre ++ l :: post⟩ w = Except.ok v := by
  have hfind : (pre ++ l :: post).findSome? (grabLine w) = some v := by
    induction pre with
    | nil => simp [List.findSome?_cons, hl]
    | cons a tl ih =>
      have ha : grabLine w a = none := hpre a (by simp)
      simp only [List.cons_append, List.findSome?_cons, ha]
      exact ih (fun x hx => hpre x (by simp [hx]))
  simp [grab, hfind]

theorem first_match_wins_witness :
    grab ⟨"f.txt", ["HQBenchmark.perftNodes thrpt 5 junk ops/s"] ++
      "HQBenchmark.perftNodes thrpt 5 1000.0 ops/s" ::
      ["HQBenchmark.perftNodes thrpt 5 555.0 ops/s"]⟩ false = Except.ok 1000 :=
  first_match_wins false "f.txt" ["HQBenchmark.perftNodes thrpt 5 junk ops/s"]
    ["HQBenchmark.perftNodes thrpt 5 555.0 ops/s"]
    "HQBenchmark.perftNodes thrpt 5 1000.0 ops/s" 1000
    (by decide) (by decide)

end ConcreteEval

end CompareJmh
